import Mathlib

/-!
Verification of the real-time messaging core of the localghost backend
(`backend/app/api/v1/endpoints/chat_websocket.py`, `backend/app/models/message.py`,
`backend/app/models/conversation.py`, `backend/app/api/v1/endpoints/chats.py`).

Shallow embedding conventions:
* Python UUIDs / database ids are carried by `Nat` (ids are opaque tokens).
* Wall-clock timestamps (`datetime.utcnow()`, `func.now()`) are carried by `Nat`
  and passed in as an explicit `now` argument; event payload timestamp strings
  are omitted from the event model (no claim mentions them).
* Python `dict`/`set` registry state is modelled by total functions with `[]`
  as the absent value (the source deletes a key exactly when its set becomes
  empty, so absent and empty are observationally identical there), and by
  duplicate-free lists in place of sets (set iteration order is unspecified in
  Python; the list order is one admissible determinization, and every theorem
  about deliveries is stated via membership, not order).
* A WebSocket transport is identified by a `Nat`; its `client_state ==
  WebSocketState.CONNECTED` test (together with `send_text` succeeding) is an
  external condition modelled by a predicate `live : Nat → Bool`.
* Fallible steps (SQLAlchemy commits, `UUID(...)` parsing) are modelled with
  explicit success/failure data; a raised-and-caught exception takes the
  handler's `except` path (rollback: state unchanged, nothing broadcast).
-/

namespace LocalGhost

/-! ### Small set-as-list helpers (Python `set.add` / `set.discard`) -/

/-- `set.add x`: append `x` unless already present (duplicate-free lists). -/
def addElem (x : Nat) (l : List Nat) : List Nat :=
  if x ∈ l then l else x :: l

/-- `set.discard x`: remove every occurrence of `x`. -/
def removeElem (x : Nat) (l : List Nat) : List Nat :=
  l.filter (fun y => y ≠ x)

/-! ### Persisted data model (`models/message.py`, `models/conversation.py`) -/

/-- `MessageType` enum. -/
inductive MessageType where
  | text
  | system
  | booking_request
  | booking_confirmation
deriving DecidableEq

/-- `MessageStatus` enum. -/
inductive MessageStatus where
  | sent
  | delivered
  | read
deriving DecidableEq

/-- The `messages` row (`models/message.py`). `edited_at`/`updated_at` are
not touched by the messaging core and are omitted. -/
structure Message where
  id : Nat
  conversation_id : Nat
  sender_id : Nat
  content : String
  message_type : MessageType
  status : MessageStatus
  is_edited : Bool
  created_at : Nat
  read_at : Option Nat
  delivered_at : Option Nat
deriving DecidableEq

/-- `Message.mark_as_read` (`models/message.py`, lines 51-55): set status
to read and stamp `read_at`, only when not already read. -/
def Message.mark_as_read (now : Nat) (m : Message) : Message :=
  if m.status ≠ MessageStatus.read then
    { m with status := MessageStatus.read, read_at := some now }
  else m

/-- `Message.mark_as_delivered` (`models/message.py`, lines 57-61): only a
`sent` message becomes `delivered`. -/
def Message.mark_as_delivered (now : Nat) (m : Message) : Message :=
  if m.status = MessageStatus.sent then
    { m with status := MessageStatus.delivered, delivered_at := some now }
  else m

/-- The `conversations` row (`models/conversation.py`). `created_at`/
`updated_at` are not read by the messaging core and are omitted. -/
structure Conversation where
  id : Nat
  traveler_id : Nat
  local_id : Nat
  last_message_at : Nat
  last_message_content : Option String
  last_message_sender_id : Option Nat
  is_active : Bool
  traveler_archived : Bool
  local_archived : Bool
deriving DecidableEq

/-- The `profiles` row fields read by `create_conversation`
(`models/user.py`: `id`, `is_active`, `role`). -/
structure AppUser where
  id : Nat
  is_active : Bool
  role : String
deriving DecidableEq

/-! ### Outbound events (`chat_websocket.py` payload constructors) -/

/-- A raw message-id string from a `mark_as_read` frame, modelled by its
`UUID(mid)` parse result: `some u` when the string parses to UUID `u`,
`none` when `UUID(mid)` would raise `ValueError`. -/
abbrev RawId := Option Nat

/-- The JSON events the server writes to sockets. Payload timestamp strings
and the sender display fields of `new_message` are omitted (no claim
mentions them). -/
inductive WsEvent where
  | connection_established (conversation_id user_id : Nat)
  | new_message (message : Message)
  | typing_status (user_id conversation_id : Nat) (is_typing : Bool)
  | messages_read (message_ids : List RawId) (reader_id conversation_id : Nat)
  | pong
  | error (reason : String)
deriving DecidableEq

/-! ### ConnectionManager (`chat_websocket.py`, lines 21-117) -/

/-- The in-process registry. `active_connections` and
`conversation_participants` are the two Python dicts (absent key ≡ `[]`);
`typing_keys` records which user keys exist in the `typing_status` dict
(the source creates `typing_status[user_id] = {}` on connect and never
deletes the outer key), and `typing_status u c = none` means conversation
`c` is absent from that user's inner dict. -/
structure ConnectionManager where
  active_connections : Nat → List Nat
  conversation_participants : Nat → List Nat
  typing_keys : List Nat
  typing_status : Nat → Nat → Option Bool

/-- The module-level `manager = ConnectionManager()` starts empty. -/
def ConnectionManager.init : ConnectionManager :=
  { active_connections := fun _ => []
    conversation_participants := fun _ => []
    typing_keys := []
    typing_status := fun _ _ => none }

/-- Pointwise update of the nested `typing_status` dict. -/
def updTyping (f : Nat → Nat → Option Bool) (u c : Nat) (v : Option Bool) :
    Nat → Nat → Option Bool :=
  fun u' c' => if u' = u ∧ c' = c then v else f u' c'

/-- `ConnectionManager.connect` (lines 30-48): add the socket to the user's
set, the user to the conversation's participant set, and ensure the user
has a (possibly empty) typing dict. -/
def ConnectionManager.connect (st : ConnectionManager) (ws user_id conversation_id : Nat) :
    ConnectionManager :=
  { st with
    active_connections :=
      Function.update st.active_connections user_id
        (addElem ws (st.active_connections user_id))
    conversation_participants :=
      Function.update st.conversation_participants conversation_id
        (addElem user_id (st.conversation_participants conversation_id))
    typing_keys := addElem user_id st.typing_keys }

/-- `ConnectionManager.send_personal_message` (lines 73-89): deliver to every
socket of `user_id` whose transport is live, and prune the dead ones from
`active_connections` (only from `active_connections` — the participant set
is untouched). Returns (new state, deliveries). -/
def ConnectionManager.send_personal_message (st : ConnectionManager) (live : Nat → Bool)
    (message : WsEvent) (user_id : Nat) : ConnectionManager × List (Nat × WsEvent) :=
  let conns := st.active_connections user_id
  ({ st with
     active_connections := Function.update st.active_connections user_id (conns.filter live) },
   (conns.filter live).map (fun ws => (ws, message)))

/-- The `for user_id in self.conversation_participants[conversation_id]` loop
of `broadcast_to_conversation`, threading the pruning done by each
`send_personal_message` call. -/
def sendLoop (live : Nat → Bool) (message : WsEvent) (exclude_user : Option Nat) :
    ConnectionManager → List Nat → ConnectionManager × List (Nat × WsEvent)
  | st, [] => (st, [])
  | st, user_id :: rest =>
    if exclude_user = some user_id then
      sendLoop live message exclude_user st rest
    else
      let r := st.send_personal_message live message user_id
      let r2 := sendLoop live message exclude_user r.1 rest
      (r2.1, r.2 ++ r2.2)

/-- `ConnectionManager.broadcast_to_conversation` (lines 91-97): send to every
current participant of the conversation, skipping `exclude_user` when given
(`exclude_user=None` for `new_message` excludes nobody). -/
def ConnectionManager.broadcast_to_conversation (st : ConnectionManager) (live : Nat → Bool)
    (message : WsEvent) (conversation_id : Nat) (exclude_user : Option Nat) :
    ConnectionManager × List (Nat × WsEvent) :=
  sendLoop live message exclude_user st (st.conversation_participants conversation_id)

/-- `ConnectionManager.broadcast_typing_status` (lines 99-113): record the
flag (only when the user's typing dict exists) and broadcast a
`typing_status` event to the other participants. -/
def ConnectionManager.broadcast_typing_status (st : ConnectionManager) (live : Nat → Bool)
    (conversation_id user_id : Nat) (is_typing : Bool) :
    ConnectionManager × List (Nat × WsEvent) :=
  let st1 :=
    if user_id ∈ st.typing_keys then
      { st with typing_status := updTyping st.typing_status user_id conversation_id (some is_typing) }
    else st
  st1.broadcast_to_conversation live
    (WsEvent.typing_status user_id conversation_id is_typing) conversation_id (some user_id)

/-- `ConnectionManager.disconnect` (lines 50-71): drop the socket; when the
user has no socket left anywhere, remove them from this conversation's
participant set and, if they had a typing entry for this conversation,
delete it and broadcast a typing-stopped event. -/
def ConnectionManager.disconnect (st : ConnectionManager) (live : Nat → Bool)
    (ws user_id conversation_id : Nat) : ConnectionManager × List (Nat × WsEvent) :=
  let ac' := removeElem ws (st.active_connections user_id)
  let st1 := { st with active_connections := Function.update st.active_connections user_id ac' }
  if ac' = [] then
    let st2 := { st1 with
      conversation_participants :=
        Function.update st1.conversation_participants conversation_id
          (removeElem user_id (st1.conversation_participants conversation_id)) }
    if user_id ∈ st2.typing_keys ∧ (st2.typing_status user_id conversation_id).isSome then
      let st3 := { st2 with
        typing_status := updTyping st2.typing_status user_id conversation_id none }
      st3.broadcast_typing_status live conversation_id user_id false
    else (st2, [])
  else (st1, [])

/-! ### Structural lemmas about the fanout loop -/

/-- A transport predicate under which every socket is live (nothing is ever
pruned, as when every client keeps its connection open). -/
def allLive : Nat → Bool := fun _ => true

/-! ### Registry operation traces (for the §8 registry-consistency property) -/

/-- One registry operation: `reg`/`unreg` are `manager.connect` /
`manager.disconnect` as issued by the endpoint, `send` is a
`send_personal_message` call (a `sendToUser` fanout, which prunes dead
sockets; its payload does not influence registry state). -/
inductive RegistryOp where
  | reg (ws user_id conversation_id : Nat)
  | unreg (ws user_id conversation_id : Nat)
  | send (user_id : Nat)
deriving DecidableEq

/-- Apply one registry operation to the manager state. -/
def applyOp (live : Nat → Bool) (st : ConnectionManager) : RegistryOp → ConnectionManager
  | RegistryOp.reg ws u c => st.connect ws u c
  | RegistryOp.unreg ws u c => (st.disconnect live ws u c).1
  | RegistryOp.send u => (st.send_personal_message live WsEvent.pong u).1

/-- Apply a sequence of registry operations in order. -/
def applyOps (live : Nat → Bool) (st : ConnectionManager) : List RegistryOp → ConnectionManager
  | [] => st
  | op :: rest => applyOps live (applyOp live st op) rest

/-- `op` is well-formed for the per-user conversation assignment `conv`:
every register/unregister of user `u` targets conversation `conv u`
(each user keeps all their sockets on a single conversation). -/
def opOk (conv : Nat → Nat) : RegistryOp → Bool
  | RegistryOp.reg _ u c => c = conv u
  | RegistryOp.unreg _ u c => c = conv u
  | RegistryOp.send _ => true

/-! ### The registry-consistency invariant (spec §8, claim C1) -/

/-- The spec's registry-consistency relation, for runs in which each user
`u` keeps all their sockets on the single conversation `conv u`: user `u`
currently attends conversation `c` exactly when they still hold at least
one registered (live) socket and `c` is their conversation. -/
def RegInv (conv : Nat → Nat) (st : ConnectionManager) : Prop :=
  ∀ u c, u ∈ st.conversation_participants c ↔
    (st.active_connections u ≠ [] ∧ c = conv u)

/-! ### `handle_mark_as_read` (`chat_websocket.py`, lines 302-351) -/

/-- The `[UUID(mid) for mid in message_ids]` comprehension: `none` when any
element raises `ValueError`. -/
def parseMessageIds : List RawId → Option (List Nat)
  | [] => some []
  | none :: _ => none
  | some u :: rest => (parseMessageIds rest).map (fun l => u :: l)

/-- The per-row effect of the `UPDATE messages SET status='read', read_at=now`
statement: a row is touched exactly when its id is listed, it belongs to this
conversation, it was not sent by the requester, and it is not already read. -/
def markOne (now conversation_id user_id : Nat) (uuids : List Nat) (m : Message) : Message :=
  if m.id ∈ uuids ∧ m.conversation_id = conversation_id ∧
      m.sender_id ≠ user_id ∧ m.status ≠ MessageStatus.read then
    { m with status := MessageStatus.read, read_at := some now }
  else m

/-- The whole `UPDATE` over the messages table. -/
def markReadUpdate (now conversation_id user_id : Nat) (uuids : List Nat)
    (db : List Message) : List Message :=
  db.map (markOne now conversation_id user_id uuids)

/-- Result of one `handle_mark_as_read` call. -/
structure MarkReadResult where
  manager : ConnectionManager
  db : List Message
  deliveries : List (Nat × WsEvent)

/-- `handle_mark_as_read`: empty id list is a no-op; an invalid UUID raises
inside the statement construction, is caught, and rolls back (no update, no
broadcast); otherwise run the guarded UPDATE, commit, and broadcast
`messages_read` (unconditionally — the source never checks how many rows
were updated) to the conversation, excluding the reader. -/
def handle_mark_as_read (live : Nat → Bool) (now : Nat) (mgr : ConnectionManager)
    (message_ids : List RawId) (user_id conversation_id : Nat) (db : List Message) :
    MarkReadResult :=
  if message_ids = [] then
    { manager := mgr, db := db, deliveries := [] }
  else
    match parseMessageIds message_ids with
    | none => { manager := mgr, db := db, deliveries := [] }
    | some uuids =>
      let db' := markReadUpdate now conversation_id user_id uuids db
      let r := mgr.broadcast_to_conversation live
        (WsEvent.messages_read message_ids user_id conversation_id)
        conversation_id (some user_id)
      { manager := r.1, db := db', deliveries := r.2 }

/-! ### `handle_send_message` (`chat_websocket.py`, lines 244-300) -/

/-- Result of one `handle_send_message` call. -/
structure SendResult where
  manager : ConnectionManager
  db : List Message
  conversation : Conversation
  deliveries : List (Nat × WsEvent)

/-- Python `str.strip()` as used on the inbound content: remove leading and
trailing whitespace characters. -/
def pyStrip (s : String) : String :=
  ⟨((s.data.dropWhile Char.isWhitespace).reverse.dropWhile Char.isWhitespace).reverse⟩

/-- `handle_send_message`: silently drop a whitespace-only content; persist
the new message and the conversation's denormalized last-message fields in
one transaction (`persistOk = false` is a raised persistence error anywhere
in add/flush/commit: the `except` path rolls everything back, logs, and
broadcasts nothing); on success broadcast `new_message` with no excluded
user. `now` is the row's `created_at` server timestamp and `newId` the
generated primary key. -/
def handle_send_message (live : Nat → Bool) (persistOk : Bool) (now newId : Nat)
    (mgr : ConnectionManager) (content_raw : String) (message_type : MessageType)
    (user_id : Nat) (conversation : Conversation) (db : List Message) : SendResult :=
  let content := pyStrip content_raw
  if content = "" then
    { manager := mgr, db := db, conversation := conversation, deliveries := [] }
  else if persistOk = false then
    { manager := mgr, db := db, conversation := conversation, deliveries := [] }
  else
    let message : Message :=
      { id := newId
        conversation_id := conversation.id
        sender_id := user_id
        content := content
        message_type := message_type
        status := MessageStatus.sent
        is_edited := false
        created_at := now
        read_at := none
        delivered_at := none }
    let conversation' := { conversation with
      last_message_at := message.created_at
      last_message_content := some (content.take 100)
      last_message_sender_id := some user_id }
    let r := mgr.broadcast_to_conversation live (WsEvent.new_message message)
      conversation.id none
    { manager := r.1, db := db ++ [message], conversation := conversation', deliveries := r.2 }

/-! ### The per-connection endpoint (`chat_websocket.py`, lines 123-206) -/

/-- Outcome of an awaited step that can raise: `ok` with its value, or `exn`
for a raised exception. -/
inductive StepOutcome (α : Type) where
  | ok (a : α)
  | exn
deriving DecidableEq

/-- One iteration of the `while True` receive loop, by outcome:
`wsDisconnect` (the receive raised `WebSocketDisconnect`, breaking the
loop), `badJson` (`json.loads` raised, an error event is sent and the loop
continues), `handlerExn` (the dispatched handler raised, an error event is
sent and the loop continues), or `frame` (a frame handled without a raised
exception). -/
inductive LoopFrame where
  | wsDisconnect
  | badJson
  | handlerExn
  | frame
deriving DecidableEq

/-- The external outcomes that drive one endpoint execution: whether a token
query parameter was supplied, what `get_current_user_websocket` did, what
the conversation membership query found (`true` = an active conversation
with this user as a participant exists), and the receive-loop iterations
(a finite prefix; an exhausted list stands for the task being torn down). -/
structure EndpointEnv where
  token_provided : Bool
  auth : StepOutcome (Option Nat)
  conversation_lookup : StepOutcome Bool
  frames : List LoopFrame
deriving DecidableEq

/-- Observable accounting of one endpoint execution: how many times
`manager.connect` and `manager.disconnect` ran, and how many error events
the loop wrote back. -/
structure EndpointRun where
  connect_calls : Nat
  disconnect_calls : Nat
  error_events : Nat
deriving DecidableEq

/-- The receive loop: count the error events written back; only a
`WebSocketDisconnect` breaks out early. -/
def runLoop : List LoopFrame → Nat
  | [] => 0
  | LoopFrame.wsDisconnect :: _ => 0
  | LoopFrame.badJson :: rest => 1 + runLoop rest
  | LoopFrame.handlerExn :: rest => 1 + runLoop rest
  | LoopFrame.frame :: rest => runLoop rest

/-- `websocket_chat_endpoint`: the try/except/finally control skeleton.
The body computes the final value of the `user` local (set only when
`get_current_user_websocket` returns a user) and whether `manager.connect`
ran; every path — early `return`s included — then executes the `finally`
block, which calls `manager.disconnect` exactly when `user` is set. -/
def websocket_chat_endpoint (env : EndpointEnv) : EndpointRun :=
  let body : Option Nat × Bool × Nat :=
    if env.token_provided = false then (none, false, 0)
    else
      match env.auth with
      | StepOutcome.exn => (none, false, 0)
      | StepOutcome.ok none => (none, false, 0)
      | StepOutcome.ok (some uid) =>
        match env.conversation_lookup with
        | StepOutcome.exn => (some uid, false, 0)
        | StepOutcome.ok false => (some uid, false, 0)
        | StepOutcome.ok true => (some uid, true, runLoop env.frames)
  { connect_calls := if body.2.1 then 1 else 0
    disconnect_calls := if body.1.isSome then 1 else 0
    error_events := body.2.2 }

/-- `true` when the endpoint execution resolved a user identity (the `user`
local was assigned a non-`None` value). -/
def userResolved (env : EndpointEnv) : Bool :=
  env.token_provided &&
    match env.auth with
    | StepOutcome.ok (some _) => true
    | _ => false

/-! ### `create_conversation` (`chats.py`, lines 125-196) -/

/-- `Result.scalar_one_or_none()` over the rows a query matched: `some none`
for zero rows, `some (some x)` for one, `none` when `MultipleResultsFound`
is raised. -/
def scalarOneOrNone {α : Type} : List α → Option (Option α)
  | [] => some none
  | [x] => some (some x)
  | _ :: _ :: _ => none

/-- The `create_conversation` HTTP outcome. -/
inductive CreateOutcome where
  | returned (c : Conversation)
  | httpError (code : Nat)
deriving DecidableEq

/-- The active-conversation-for-this-pair filter of the existing-conversation
query: `traveler_id == current_user.id AND local_id == local_id AND
is_active`. -/
def pairMatch (traveler_id local_id : Nat) (c : Conversation) : Bool :=
  c.traveler_id = traveler_id ∧ c.local_id = local_id ∧ c.is_active

/-- The local-guide lookup filter: `id == local_id AND is_active AND
role == 'local'`. -/
def localGuideMatch (local_id : Nat) (u : AppUser) : Bool :=
  u.id = local_id ∧ u.is_active ∧ u.role = "local"

/-- `create_conversation`: 404 unless the target local guide exists, is
active and has the local role; reuse the existing active conversation for
this (traveler, local) pair when there is exactly one (returning it and
writing nothing); a `MultipleResultsFound` raise becomes a rolled-back 500;
otherwise insert a new conversation (active, last-message fields seeded from
the initial message truncated to 100 characters) plus its initial message in
one transaction. `newConvId`/`newMsgId`/`now` are the generated keys and the
server timestamp. -/
def create_conversation (current_user : AppUser) (local_id : Nat) (initial_message : String)
    (users : List AppUser) (convs : List Conversation) (msgs : List Message)
    (newConvId newMsgId now : Nat) :
    (List Conversation × List Message) × CreateOutcome :=
  match scalarOneOrNone (users.filter (localGuideMatch local_id)) with
  | none => ((convs, msgs), CreateOutcome.httpError 500)
  | some none => ((convs, msgs), CreateOutcome.httpError 404)
  | some (some _) =>
    match scalarOneOrNone (convs.filter (pairMatch current_user.id local_id)) with
    | none => ((convs, msgs), CreateOutcome.httpError 500)
    | some (some existing) => ((convs, msgs), CreateOutcome.returned existing)
    | some none =>
      let conversation : Conversation :=
        { id := newConvId
          traveler_id := current_user.id
          local_id := local_id
          last_message_at := now
          last_message_content := some (initial_message.take 100)
          last_message_sender_id := some current_user.id
          is_active := true
          traveler_archived := false
          local_archived := false }
      let initial : Message :=
        { id := newMsgId
          conversation_id := newConvId
          sender_id := current_user.id
          content := initial_message
          message_type := MessageType.text
          status := MessageStatus.sent
          is_edited := false
          created_at := now
          read_at := none
          delivered_at := none }
      ((convs ++ [conversation], msgs ++ [initial]), CreateOutcome.returned conversation)

/-! ## Lemmas -/

theorem mem_addElem {x y : Nat} {l : List Nat} : x ∈ addElem y l ↔ x = y ∨ x ∈ l := by
  unfold addElem
  split
  · constructor
    · exact fun h => Or.inr h
    · rintro (rfl | h)
      · assumption
      · exact h
  · exact List.mem_cons

theorem addElem_ne_nil (x : Nat) (l : List Nat) : addElem x l ≠ [] := by
  unfold addElem
  split
  · intro h
    subst h
    simp at *
  · simp

theorem mem_removeElem {x y : Nat} {l : List Nat} : x ∈ removeElem y l ↔ x ∈ l ∧ x ≠ y := by
  unfold removeElem
  simp [List.mem_filter]

theorem removeElem_not_mem {x : Nat} {l : List Nat} (h : x ∉ l) : removeElem x l = l := by
  unfold removeElem
  rw [List.filter_eq_self]
  intro a ha
  simp only [ne_eq, decide_eq_true_eq]
  exact fun hax => h (hax ▸ ha)

theorem send_fst_cp (st : ConnectionManager) (live : Nat → Bool) (e : WsEvent) (u : Nat) :
    (st.send_personal_message live e u).1.conversation_participants =
      st.conversation_participants := rfl

theorem send_fst_typing (st : ConnectionManager) (live : Nat → Bool) (e : WsEvent) (u : Nat) :
    (st.send_personal_message live e u).1.typing_status = st.typing_status := rfl

theorem sendLoop_fst_cp (live : Nat → Bool) (e : WsEvent) (x : Option Nat) :
    ∀ (l : List Nat) (st : ConnectionManager),
      (sendLoop live e x st l).1.conversation_participants = st.conversation_participants := by
  intro l
  induction l with
  | nil => intro st; rfl
  | cons u0 rest ih =>
    intro st
    rw [sendLoop]
    split
    · exact ih st
    · exact ih _

theorem sendLoop_fst_typing (live : Nat → Bool) (e : WsEvent) (x : Option Nat) :
    ∀ (l : List Nat) (st : ConnectionManager),
      (sendLoop live e x st l).1.typing_status = st.typing_status := by
  intro l
  induction l with
  | nil => intro st; rfl
  | cons u0 rest ih =>
    intro st
    rw [sendLoop]
    split
    · exact ih st
    · exact ih _

theorem sendLoop_fst_keys (live : Nat → Bool) (e : WsEvent) (x : Option Nat) :
    ∀ (l : List Nat) (st : ConnectionManager),
      (sendLoop live e x st l).1.typing_keys = st.typing_keys := by
  intro l
  induction l with
  | nil => intro st; rfl
  | cons u0 rest ih =>
    intro st
    rw [sendLoop]
    split
    · exact ih st
    · exact ih _

theorem send_fst_ac_apply (st : ConnectionManager) (live : Nat → Bool) (e : WsEvent)
    (u v : Nat) :
    (st.send_personal_message live e u).1.active_connections v =
      if v = u then (st.active_connections u).filter live else st.active_connections v := by
  by_cases h : v = u
  · subst h
    simp [ConnectionManager.send_personal_message, Function.update_same]
  · simp [ConnectionManager.send_personal_message, Function.update_noteq h, h]

/-- A live socket is registered for `u` after a `send_personal_message` call
iff it was before (only dead sockets are pruned). -/
theorem mem_ac_send_iff (st : ConnectionManager) (live : Nat → Bool) (e : WsEvent)
    (u0 u ws : Nat) (hlv : live ws = true) :
    ws ∈ (st.send_personal_message live e u0).1.active_connections u ↔
      ws ∈ st.active_connections u := by
  rw [send_fst_ac_apply]
  split
  · rename_i h
    subst h
    rw [List.mem_filter]
    simp [hlv]
  · exact Iff.rfl

theorem send_snd_mem (st : ConnectionManager) (live : Nat → Bool) (e : WsEvent)
    (u ws : Nat) (ev : WsEvent) :
    (ws, ev) ∈ (st.send_personal_message live e u).2 ↔
      ev = e ∧ ws ∈ st.active_connections u ∧ live ws = true := by
  simp only [ConnectionManager.send_personal_message, List.mem_map, List.mem_filter,
    Prod.mk.injEq]
  constructor
  · rintro ⟨a, ⟨hmem, hlv⟩, ha, he⟩
    subst ha
    exact ⟨he.symm, hmem, hlv⟩
  · rintro ⟨he, hmem, hlv⟩
    exact ⟨ws, ⟨hmem, hlv⟩, rfl, he.symm⟩

/-- Which (socket, event) pairs a fanout over `l` delivers: exactly the event
being broadcast, on every live socket of every listed user that is not the
excluded one. Stated over the state at loop entry; the pruning done along
the way removes only non-live sockets, so it cannot change this set. -/
theorem sendLoop_snd_mem (live : Nat → Bool) (e : WsEvent) (x : Option Nat)
    (ws : Nat) (ev : WsEvent) :
    ∀ (l : List Nat) (st : ConnectionManager),
      (ws, ev) ∈ (sendLoop live e x st l).2 ↔
        (ev = e ∧ ∃ u, u ∈ l ∧ x ≠ some u ∧
          ws ∈ st.active_connections u ∧ live ws = true) := by
  intro l
  induction l with
  | nil => intro st; simp [sendLoop]
  | cons u0 rest ih =>
    intro st
    rw [sendLoop]
    split
    · rename_i hx
      rw [ih st]
      constructor
      · rintro ⟨he, u, hu, hxu, hws, hlv⟩
        exact ⟨he, u, List.mem_cons_of_mem _ hu, hxu, hws, hlv⟩
      · rintro ⟨he, u, hu, hxu, hws, hlv⟩
        rcases List.mem_cons.mp hu with heq | hu
        · subst heq
          exact absurd hx hxu
        · exact ⟨he, u, hu, hxu, hws, hlv⟩
    · rename_i hx
      simp only [List.mem_append, send_snd_mem, ih]
      constructor
      · rintro (⟨he, hws, hlv⟩ | ⟨he, u, hu, hxu, hws, hlv⟩)
        · exact ⟨he, u0, List.mem_cons_self _ _, hx, hws, hlv⟩
        · exact ⟨he, u, List.mem_cons_of_mem _ hu, hxu,
            (mem_ac_send_iff st live e u0 u ws hlv).mp hws, hlv⟩
      · rintro ⟨he, u, hu, hxu, hws, hlv⟩
        rcases List.mem_cons.mp hu with heq | hu
        · subst heq
          exact Or.inl ⟨he, hws, hlv⟩
        · exact Or.inr ⟨he, u, hu, hxu,
            (mem_ac_send_iff st live e u0 u ws hlv).mpr hws, hlv⟩

/-- A fanout where every socket is live does not change the registry. -/
theorem send_fst_allLive (st : ConnectionManager) (e : WsEvent) (u : Nat) :
    (st.send_personal_message allLive e u).1 = st := by
  have h : (st.active_connections u).filter allLive = st.active_connections u :=
    List.filter_eq_self.mpr (fun _ _ => by rfl)
  simp only [ConnectionManager.send_personal_message, h, Function.update_eq_self]

theorem sendLoop_fst_allLive (e : WsEvent) (x : Option Nat) :
    ∀ (l : List Nat) (st : ConnectionManager), (sendLoop allLive e x st l).1 = st := by
  intro l
  induction l with
  | nil => intro st; rfl
  | cons u0 rest ih =>
    intro st
    rw [sendLoop]
    split
    · exact ih st
    · rw [ih, send_fst_allLive]

theorem broadcast_fst_allLive (st : ConnectionManager) (e : WsEvent) (c : Nat)
    (x : Option Nat) : (st.broadcast_to_conversation allLive e c x).1 = st :=
  sendLoop_fst_allLive e x _ st

theorem bts_fst_allLive_ac (st : ConnectionManager) (c u : Nat) (b : Bool) :
    (st.broadcast_typing_status allLive c u b).1.active_connections =
      st.active_connections := by
  by_cases hk : u ∈ st.typing_keys
  · simp only [ConnectionManager.broadcast_typing_status,
      ConnectionManager.broadcast_to_conversation, if_pos hk, sendLoop_fst_allLive]
  · simp only [ConnectionManager.broadcast_typing_status,
      ConnectionManager.broadcast_to_conversation, if_neg hk, sendLoop_fst_allLive]

theorem bts_fst_allLive_cp (st : ConnectionManager) (c u : Nat) (b : Bool) :
    (st.broadcast_typing_status allLive c u b).1.conversation_participants =
      st.conversation_participants := by
  by_cases hk : u ∈ st.typing_keys
  · simp only [ConnectionManager.broadcast_typing_status,
      ConnectionManager.broadcast_to_conversation, if_pos hk, sendLoop_fst_allLive]
  · simp only [ConnectionManager.broadcast_typing_status,
      ConnectionManager.broadcast_to_conversation, if_neg hk, sendLoop_fst_allLive]

theorem disconnect_fst_ac_allLive (st : ConnectionManager) (ws u c : Nat) :
    (st.disconnect allLive ws u c).1.active_connections =
      Function.update st.active_connections u (removeElem ws (st.active_connections u)) := by
  simp only [ConnectionManager.disconnect]
  split
  · split
    · rw [bts_fst_allLive_ac]
    · rfl
  · rfl

theorem disconnect_fst_cp_allLive (st : ConnectionManager) (ws u c : Nat) :
    (st.disconnect allLive ws u c).1.conversation_participants =
      if removeElem ws (st.active_connections u) = [] then
        Function.update st.conversation_participants c
          (removeElem u (st.conversation_participants c))
      else st.conversation_participants := by
  simp only [ConnectionManager.disconnect]
  split
  · split
    · rw [bts_fst_allLive_cp]
    · rfl
  · rfl

theorem regInv_init (conv : Nat → Nat) : RegInv conv ConnectionManager.init := by
  intro u c
  simp [ConnectionManager.init]

theorem regInv_connect (conv : Nat → Nat) (st : ConnectionManager) (ws u0 : Nat)
    (h : RegInv conv st) : RegInv conv (st.connect ws u0 (conv u0)) := by
  intro u c
  simp only [ConnectionManager.connect]
  by_cases hu : u = u0
  · subst hu
    by_cases hc : c = conv u
    · subst hc
      rw [Function.update_same, Function.update_same]
      simp [mem_addElem, addElem_ne_nil]
    · rw [Function.update_noteq hc, Function.update_same, h u c]
      simp [hc]
  · rw [Function.update_noteq hu]
    by_cases hc : c = conv u0
    · subst hc
      rw [Function.update_same, mem_addElem]
      simp [hu, h u (conv u0)]
    · rw [Function.update_noteq hc]
      exact h u c

theorem regInv_disconnect (conv : Nat → Nat) (st : ConnectionManager) (ws u0 : Nat)
    (h : RegInv conv st) : RegInv conv (st.disconnect allLive ws u0 (conv u0)).1 := by
  intro u c
  rw [disconnect_fst_ac_allLive, disconnect_fst_cp_allLive]
  by_cases he : removeElem ws (st.active_connections u0) = []
  · rw [if_pos he]
    by_cases hu : u = u0
    · subst hu
      by_cases hc : c = conv u
      · subst hc
        rw [Function.update_same, Function.update_same, mem_removeElem]
        simp [he]
      · rw [Function.update_noteq hc, Function.update_same, h u c]
        simp [hc]
    · rw [Function.update_noteq hu]
      by_cases hc : c = conv u0
      · subst hc
        rw [Function.update_same, mem_removeElem]
        simp [hu, h u (conv u0)]
      · rw [Function.update_noteq hc]
        exact h u c
  · rw [if_neg he]
    by_cases hu : u = u0
    · subst hu
      rw [Function.update_same, h u c]
      have hne : st.active_connections u ≠ [] := by
        intro h0
        apply he
        rw [h0]
        rfl
      simp [hne, he]
    · rw [Function.update_noteq hu]
      exact h u c

theorem regInv_send (conv : Nat → Nat) (st : ConnectionManager) (u0 : Nat)
    (h : RegInv conv st) : RegInv conv (st.send_personal_message allLive WsEvent.pong u0).1 := by
  rw [send_fst_allLive]
  exact h

theorem applyOps_regInv (conv : Nat → Nat) :
    ∀ (ops : List RegistryOp) (st : ConnectionManager),
      RegInv conv st → (∀ op ∈ ops, opOk conv op = true) →
      RegInv conv (applyOps allLive st ops) := by
  intro ops
  induction ops with
  | nil =>
    intro st h _
    exact h
  | cons op rest ih =>
    intro st h hok
    have hop := hok op (List.mem_cons_self _ _)
    apply ih
    · cases op with
      | reg ws u c =>
        have hc : c = conv u := by simpa [opOk] using hop
        subst hc
        exact regInv_connect conv st ws u h
      | unreg ws u c =>
        have hc : c = conv u := by simpa [opOk] using hop
        subst hc
        exact regInv_disconnect conv st ws u h
      | send u => exact regInv_send conv st u h
    · exact fun o ho => hok o (List.mem_cons_of_mem _ ho)


/-! ### Lemmas about `handle_mark_as_read` -/

theorem parseMessageIds_of_invalid {ids : List RawId} (h : none ∈ ids) :
    parseMessageIds ids = none := by
  induction ids with
  | nil => cases h
  | cons a rest ih =>
    cases a with
    | none => rfl
    | some v =>
      rcases List.mem_cons.mp h with h0 | h0
      · exact Option.noConfusion h0
      · rw [parseMessageIds, ih h0]
        rfl

theorem markOne_of_read {m : Message} (h : m.status = MessageStatus.read)
    (now c u : Nat) (ids : List Nat) : markOne now c u ids m = m := by
  unfold markOne
  rw [if_neg]
  rintro ⟨-, -, -, h4⟩
  exact h4 h

theorem markOne_of_sender {m : Message} {u : Nat} (h : m.sender_id = u)
    (now c : Nat) (ids : List Nat) : markOne now c u ids m = m := by
  unfold markOne
  rw [if_neg]
  rintro ⟨-, -, h3, -⟩
  exact h3 h

theorem markOne_markOne (now now' c u : Nat) (ids : List Nat) (m : Message) :
    markOne now c u ids (markOne now' c u ids m) = markOne now' c u ids m := by
  by_cases h : m.id ∈ ids ∧ m.conversation_id = c ∧ m.sender_id ≠ u ∧
      m.status ≠ MessageStatus.read
  · have h1 : markOne now' c u ids m =
        { m with status := MessageStatus.read, read_at := some now' } := by
      unfold markOne
      rw [if_pos h]
    rw [h1]
    exact markOne_of_read rfl now c u ids
  · have h1 : markOne now' c u ids m = m := by
      unfold markOne
      rw [if_neg h]
    rw [h1]
    unfold markOne
    rw [if_neg h]

theorem markReadUpdate_idem (now now' c u : Nat) (ids : List Nat) (db : List Message) :
    markReadUpdate now c u ids (markReadUpdate now' c u ids db) =
      markReadUpdate now' c u ids db := by
  unfold markReadUpdate
  rw [List.map_map]
  exact List.map_congr_left (fun m _ => markOne_markOne now now' c u ids m)

/-! ## Claim C1: registry consistency -/

/-- A user whose sockets are spread over two conversations: registering and
then unregistering both leaves the user in the first conversation's
participant set with no socket left (`disconnect` removes the user only from
the conversation passed to it). -/
def c1TraceMulti : ConnectionManager :=
  applyOps allLive ConnectionManager.init
    [RegistryOp.reg 1 10 100, RegistryOp.reg 2 10 200,
     RegistryOp.unreg 1 10 100, RegistryOp.unreg 2 10 200]

/-- A dead socket pruned by a `sendToUser` fanout: the user's last socket is
removed from `active_connections` but the participant set is not updated. -/
def c1TracePrune : ConnectionManager :=
  applyOps (fun ws => ws != 1) ConnectionManager.init
    [RegistryOp.reg 1 10 100, RegistryOp.send 10]

/-- C1, counterexample. The claim says the attendee set of a conversation
always equals the set of users holding at least one live session who were
registered into it and not yet fully unregistered. Two concrete runs refute
it: (a) user 10 registers socket 1 into conversation 100 and socket 2 into
conversation 200, then unregisters both, yet stays in conversation 100's
attendee set with an empty session set; (b) user 10 registers their only
socket 1 into conversation 100, the socket dies, and a `sendToUser` fanout
prunes it, yet user 10 stays in conversation 100's attendee set with no
session at all. In both final states the claimed attendee set is empty. -/
theorem C1_registry_consistency_counterexample :
    (c1TraceMulti.conversation_participants 100 = [10] ∧
      c1TraceMulti.active_connections 10 = []) ∧
    (c1TracePrune.conversation_participants 100 = [10] ∧
      c1TracePrune.active_connections 10 = []) :=
  ⟨⟨rfl, rfl⟩, ⟨rfl, rfl⟩⟩

/-- C1, amended: for every sequence of register/unregister operations in
which each user keeps all their sockets on a single conversation
(`conv u`), interleaved with `sendToUser` fanouts while every socket is
live (so pruning removes nothing), the conversation's attendee set equals
exactly the set of users who still hold at least one registered live session
and whose conversation is that one. -/
theorem C1_registry_consistency_amended (conv : Nat → Nat) (ops : List RegistryOp)
    (hops : ∀ op ∈ ops, opOk conv op = true) :
    ∀ u c,
      u ∈ (applyOps allLive ConnectionManager.init ops).conversation_participants c ↔
        ((applyOps allLive ConnectionManager.init ops).active_connections u ≠ [] ∧
          c = conv u) :=
  applyOps_regInv conv ops ConnectionManager.init (regInv_init conv) hops

/-- Witness for C1 (amended) at a concrete single-conversation run. -/
theorem C1_registry_consistency_amended_witness :
    (∀ op ∈ [RegistryOp.reg 1 10 100, RegistryOp.reg 2 10 100,
        RegistryOp.unreg 1 10 100, RegistryOp.send 10],
      opOk (fun _ => 100) op = true) ∧
    (∀ u c,
      u ∈ (applyOps allLive ConnectionManager.init
          [RegistryOp.reg 1 10 100, RegistryOp.reg 2 10 100,
           RegistryOp.unreg 1 10 100, RegistryOp.send 10]).conversation_participants c ↔
        ((applyOps allLive ConnectionManager.init
            [RegistryOp.reg 1 10 100, RegistryOp.reg 2 10 100,
             RegistryOp.unreg 1 10 100, RegistryOp.send 10]).active_connections u ≠ [] ∧
          c = 100)) :=
  ⟨by decide,
    C1_registry_consistency_amended (fun _ => 100)
      [RegistryOp.reg 1 10 100, RegistryOp.reg 2 10 100,
       RegistryOp.unreg 1 10 100, RegistryOp.send 10] (by decide)⟩

/-! ## Claim C5: broadcast completeness -/

/-- A state with two attendees of conversation 1: user 10 on socket 5 and
user 20 on socket 6 (used to instantiate the broadcast theorem). -/
def c5State : ConnectionManager :=
  { active_connections := fun u => if u = 10 then [5] else if u = 20 then [6] else []
    conversation_participants := fun c => if c = 1 then [10, 20] else []
    typing_keys := [10, 20]
    typing_status := fun _ _ => none }

/-- C5: `broadcast_to_conversation` delivers the event to every live socket
of every attendee other than the excluded user; no socket of the excluded
user receives anything (given that no socket is registered for two distinct
users, which connection-scoped socket ownership guarantees); and with no
excluded user (the `new_message` case) every attendee's live sockets —
the sender's included — receive the event. -/
theorem C5_broadcast_completeness (live : Nat → Bool) (st : ConnectionManager)
    (e : WsEvent) (c xu : Nat)
    (hdisj : ∀ v ∈ st.conversation_participants c, v ≠ xu →
      ∀ ws ∈ st.active_connections xu, ws ∉ st.active_connections v) :
    (∀ u ∈ st.conversation_participants c, u ≠ xu →
      ∀ ws ∈ st.active_connections u, live ws = true →
        (ws, e) ∈ (st.broadcast_to_conversation live e c (some xu)).2) ∧
    (∀ ws ∈ st.active_connections xu, ∀ ev,
      (ws, ev) ∉ (st.broadcast_to_conversation live e c (some xu)).2) ∧
    (∀ u ∈ st.conversation_participants c,
      ∀ ws ∈ st.active_connections u, live ws = true →
        (ws, e) ∈ (st.broadcast_to_conversation live e c none).2) := by
  refine ⟨?_, ?_, ?_⟩
  · intro u hu hne ws hws hlv
    rw [ConnectionManager.broadcast_to_conversation, sendLoop_snd_mem]
    exact ⟨rfl, u, hu, fun h => hne (Option.some_inj.mp h).symm, hws, hlv⟩
  · intro ws hws ev hmem
    rw [ConnectionManager.broadcast_to_conversation, sendLoop_snd_mem] at hmem
    obtain ⟨-, u, hu, hxu, hws', -⟩ := hmem
    have hne : u ≠ xu := fun h => hxu (congrArg some h.symm)
    exact hdisj u hu hne ws hws hws'
  · intro u hu ws hws hlv
    rw [ConnectionManager.broadcast_to_conversation, sendLoop_snd_mem]
    exact ⟨rfl, u, hu, fun h => Option.noConfusion h, hws, hlv⟩

/-- Witness for C5 at `c5State`: excluding user 10, the event reaches user
20's socket 6 and nothing reaches user 10's socket 5. -/
theorem C5_broadcast_completeness_witness :
    ((6, WsEvent.pong) ∈
      (c5State.broadcast_to_conversation allLive WsEvent.pong 1 (some 10)).2) ∧
    ((5, WsEvent.pong) ∉
      (c5State.broadcast_to_conversation allLive WsEvent.pong 1 (some 10)).2) ∧
    ((5, WsEvent.pong) ∈
      (c5State.broadcast_to_conversation allLive WsEvent.pong 1 none).2) :=
  ⟨(C5_broadcast_completeness allLive c5State WsEvent.pong 1 10 (by decide)).1
      20 (by decide) (by decide) 6 (by decide) rfl,
    (C5_broadcast_completeness allLive c5State WsEvent.pong 1 10 (by decide)).2.1
      5 (by decide) WsEvent.pong,
    (C5_broadcast_completeness allLive c5State WsEvent.pong 1 10 (by decide)).2.2
      10 (by decide) 5 (by decide) rfl⟩

/-! ## Claim C6: typing cleanup on disconnect -/

/-- Users 10 (socket 1) and 20 (socket 2) attend conversation 100; user 10
never typed, and their only session disconnects. -/
def c6NoEntry : ConnectionManager × List (Nat × WsEvent) :=
  ((ConnectionManager.init.connect 1 10 100).connect 2 20 100).disconnect allLive 1 10 100

/-- User 10 attends conversations 100 (socket 1) and 200 (socket 2), starts
typing in 200, then disconnects both sockets (200 first, then 100). -/
def c6OtherFlag : ConnectionManager :=
  ((((ConnectionManager.init.connect 1 10 100).connect 2 10 200).broadcast_typing_status
      allLive 200 10 true).1.disconnect allLive 2 10 200).1.disconnect allLive 1 10 100
    |>.1

/-- C6, counterexample. The claim says that after a user's last live session
disconnects, their typing flag for EVERY conversation is cleared and a
typing-stopped event is broadcast to the remaining attendees. Two concrete
runs refute it: (a) user 10 (who never typed) disconnects their last session
from conversation 100 while attendee 20 remains on live socket 2, and no
event at all is delivered (the source only broadcasts when a typing entry
for that conversation existed); (b) user 10 typing in conversation 200
disconnects their last session (from conversation 100), and their typing
flag for conversation 200 is still `True` afterwards (the source clears only
the flag of the conversation passed to `disconnect`). -/
theorem C6_typing_cleanup_counterexample :
    (c6NoEntry.2 = [] ∧
      c6NoEntry.1.conversation_participants 100 = [20] ∧
      c6NoEntry.1.active_connections 20 = [2]) ∧
    (c6OtherFlag.typing_status 10 200 = some true ∧
      c6OtherFlag.active_connections 10 = []) :=
  ⟨⟨rfl, rfl, rfl⟩, ⟨rfl, rfl⟩⟩

/-- C6, amended: when a user's last live session disconnects via
`disconnect(ws, u, c)` (given the user's typing dict exists, which `connect`
guarantees), the typing flag for conversation `c` ends not-set (it is absent
or `False`, never `True`), typing flags for other conversations are left
untouched, and — only if the user had a typing entry for `c` — a
`typing_status(u, c, False)` event is delivered to every live socket of
every remaining attendee of `c`. -/
theorem C6_typing_cleanup_amended (live : Nat → Bool) (st : ConnectionManager)
    (ws u c : Nat)
    (hlast : removeElem ws (st.active_connections u) = [])
    (hkey : u ∈ st.typing_keys) :
    ((st.disconnect live ws u c).1.typing_status u c ≠ some true) ∧
    (∀ c', c' ≠ c →
      (st.disconnect live ws u c).1.typing_status u c' = st.typing_status u c') ∧
    (∀ b, st.typing_status u c = some b →
      ∀ v ∈ st.conversation_participants c, v ≠ u →
        ∀ ws' ∈ st.active_connections v, live ws' = true →
          (ws', WsEvent.typing_status u c false) ∈ (st.disconnect live ws u c).2) := by
  cases hts : st.typing_status u c with
  | none =>
    have hguard : ¬(u ∈ st.typing_keys ∧ (st.typing_status u c).isSome) := by
      rintro ⟨-, h2⟩
      rw [hts] at h2
      cases h2
    have hd : st.disconnect live ws u c =
        ({ st with
            active_connections :=
              Function.update st.active_connections u
                (removeElem ws (st.active_connections u))
            conversation_participants :=
              Function.update st.conversation_participants c
                (removeElem u (st.conversation_participants c)) }, []) := by
      simp only [ConnectionManager.disconnect, if_pos hlast]
      rw [if_neg hguard]
    refine ⟨?_, ?_, ?_⟩
    · rw [hd]
      simp [hts]
    · intro c' _
      rw [hd]
    · intro b hb
      exact Option.noConfusion hb
  | some b0 =>
    have hguard : u ∈ st.typing_keys ∧ (st.typing_status u c).isSome := by
      refine ⟨hkey, ?_⟩
      rw [hts]
      rfl
    have hd : st.disconnect live ws u c =
        sendLoop live (WsEvent.typing_status u c false) (some u)
          { st with
            active_connections :=
              Function.update st.active_connections u
                (removeElem ws (st.active_connections u))
            conversation_participants :=
              Function.update st.conversation_participants c
                (removeElem u (st.conversation_participants c))
            typing_status :=
              updTyping (updTyping st.typing_status u c none) u c (some false) }
          (removeElem u (st.conversation_participants c)) := by
      simp only [ConnectionManager.disconnect, if_pos hlast,
        ConnectionManager.broadcast_typing_status,
        ConnectionManager.broadcast_to_conversation]
      rw [if_pos hguard, if_pos hkey]
      simp only [Function.update_same]
    refine ⟨?_, ?_, ?_⟩
    · rw [hd, sendLoop_fst_typing]
      simp [updTyping]
    · intro c' hc'
      rw [hd, sendLoop_fst_typing]
      simp [updTyping, hc']
    · intro b hb v hv hvne ws' hws' hlv
      rw [hd, sendLoop_snd_mem]
      refine ⟨rfl, v, mem_removeElem.mpr ⟨hv, hvne⟩,
        fun h => hvne (Option.some_inj.mp h).symm, ?_, hlv⟩
      show ws' ∈ Function.update st.active_connections u
        (removeElem ws (st.active_connections u)) v
      rw [Function.update_noteq hvne]
      exact hws'

/-- A state where user 10 (socket 1) and user 20 (socket 2) attend
conversation 100 and user 10 is typing there. -/
def c6WitnessState : ConnectionManager :=
  { active_connections := fun u => if u = 10 then [1] else if u = 20 then [2] else []
    conversation_participants := fun c => if c = 100 then [10, 20] else []
    typing_keys := [10, 20]
    typing_status := fun u c => if u = 10 ∧ c = 100 then some true else none }

/-- Witness for C6 (amended): user 10's last socket 1 leaves conversation
100 while typing there; attendee 20's live socket 2 gets the stop event. -/
theorem C6_typing_cleanup_amended_witness :
    (removeElem 1 (c6WitnessState.active_connections 10) = [] ∧
      10 ∈ c6WitnessState.typing_keys ∧
      c6WitnessState.typing_status 10 100 = some true) ∧
    ((c6WitnessState.disconnect allLive 1 10 100).1.typing_status 10 100 ≠ some true) ∧
    ((2, WsEvent.typing_status 10 100 false) ∈
      (c6WitnessState.disconnect allLive 1 10 100).2) :=
  ⟨⟨rfl, by decide, rfl⟩,
    (C6_typing_cleanup_amended allLive c6WitnessState 1 10 100 rfl (by decide)).1,
    (C6_typing_cleanup_amended allLive c6WitnessState 1 10 100 rfl (by decide)).2.2
      true rfl 20 (by decide) (by decide) 2 (by decide) rfl⟩

/-! ## Claim C2: status monotonicity and mark-as-read idempotence -/

/-- Conversation 5 with attendee users 1 (socket 11) and 2 (socket 22). -/
def c2Mgr : ConnectionManager :=
  { active_connections := fun u => if u = 1 then [11] else if u = 2 then [22] else []
    conversation_participants := fun c => if c = 5 then [1, 2] else []
    typing_keys := [1, 2]
    typing_status := fun _ _ => none }

/-- One unread message (id 3) from user 2 in conversation 5. -/
def c2Db : List Message :=
  [{ id := 3, conversation_id := 5, sender_id := 2, content := "hi",
     message_type := MessageType.text, status := MessageStatus.sent,
     is_edited := false, created_at := 0, read_at := none, delivered_at := none }]

/-- User 1 marks message 3 as read. -/
def c2First : MarkReadResult := handle_mark_as_read allLive 7 c2Mgr [some 3] 1 5 c2Db

/-- User 1 marks the same (now already read) message 3 as read again. -/
def c2Second : MarkReadResult :=
  handle_mark_as_read allLive 8 c2First.manager [some 3] 1 5 c2First.db

/-- C2, counterexample. The claim says a second mark-as-read on an
already-read id is a no-op producing no duplicate `messages_read`
broadcast. In this concrete run the first call marks message 3 read; the
second call indeed changes no message state, but it still delivers a
`messages_read` broadcast to user 2's socket 22 — the source broadcasts
unconditionally, never checking whether any row was updated. -/
theorem C2_mark_read_counterexample :
    ((c2First.db.map Message.status) = [MessageStatus.read]) ∧
    c2Second.db = c2First.db ∧
    (22, WsEvent.messages_read [some 3] 1 5) ∈ c2Second.deliveries :=
  ⟨rfl, rfl, by decide⟩

/-- C2, amended: a message's status never regresses from `read` (the UPDATE
row-guard, `Message.mark_as_read` and `Message.mark_as_delivered` all leave
a read message untouched), and a second `mark_as_read` with the same id list
changes no message state — but the `messages_read` broadcast is emitted
again on the second call: the deliveries do not depend on the message table
at all, so the duplicate broadcast is not suppressed. -/
theorem C2_mark_read_amended :
    (∀ (now c u : Nat) (ids : List Nat) (m : Message),
      m.status = MessageStatus.read → markOne now c u ids m = m) ∧
    (∀ (now : Nat) (m : Message), m.status = MessageStatus.read →
      Message.mark_as_read now m = m ∧ Message.mark_as_delivered now m = m) ∧
    (∀ (live live' : Nat → Bool) (now now' : Nat) (mgr mgr' : ConnectionManager)
        (ids : List RawId) (u c : Nat) (db : List Message),
      (handle_mark_as_read live' now' mgr' ids u c
          (handle_mark_as_read live now mgr ids u c db).db).db =
        (handle_mark_as_read live now mgr ids u c db).db) ∧
    (∀ (live : Nat → Bool) (now : Nat) (mgr : ConnectionManager) (ids : List RawId)
        (u c : Nat) (db db' : List Message),
      (handle_mark_as_read live now mgr ids u c db).deliveries =
        (handle_mark_as_read live now mgr ids u c db').deliveries) := by
  refine ⟨?_, ?_, ?_, ?_⟩
  · intro now c u ids m h
    exact markOne_of_read h now c u ids
  · intro now m h
    constructor
    · simp [Message.mark_as_read, h]
    · simp [Message.mark_as_delivered, h]
  · intro live live' now now' mgr mgr' ids u c db
    unfold handle_mark_as_read
    split
    · rfl
    · split
      · rfl
      · rename_i uuids heq
        simp only
        rw [markReadUpdate_idem]
  · intro live now mgr ids u c db db'
    unfold handle_mark_as_read
    split
    · rfl
    · split
      · rfl
      · rfl

/-- Witness for C2 (amended), at message 3 of `c2First.db` (already read). -/
theorem C2_mark_read_amended_witness :
    ((c2First.db.map Message.status) = [MessageStatus.read]) ∧
    (∀ m ∈ c2First.db, markOne 9 5 1 [3] m = m) :=
  ⟨rfl, fun m hm =>
    C2_mark_read_amended.1 9 5 1 [3] m (by
      rcases List.mem_singleton.mp hm with rfl
      rfl)⟩

/-! ## Claim C3: self-read-receipt rejection -/

/-- C3: a `mark_as_read` request never changes a message whose sender is the
requester, whatever ids the list carries: the handler's result table is
related row-by-row to the input table, each row sent by the requester
mapping to itself (the UPDATE filters on `sender_id != user.id`). -/
theorem C3_no_self_read_receipt (live : Nat → Bool) (now : Nat)
    (mgr : ConnectionManager) (ids : List RawId) (u c : Nat) (db : List Message) :
    List.Forall₂ (fun m m' => m.sender_id = u → m' = m) db
      (handle_mark_as_read live now mgr ids u c db).db := by
  unfold handle_mark_as_read
  split
  · exact List.forall₂_same.mpr (fun m _ _ => rfl)
  · split
    · exact List.forall₂_same.mpr (fun m _ _ => rfl)
    · rename_i uuids heq
      simp only
      unfold markReadUpdate
      rw [List.forall₂_map_right_iff]
      refine List.forall₂_same.mpr ?_
      intro m _ hsender
      exact markOne_of_sender hsender now c uuids

/-- Witness for C3: the requester's own (unread) message keeps its status
even when its id is listed. -/
theorem C3_no_self_read_receipt_witness :
    List.Forall₂ (fun m m' => m.sender_id = 2 → m' = m) c2Db
      (handle_mark_as_read allLive 7 c2Mgr [some 3] 2 5 c2Db).db :=
  C3_no_self_read_receipt allLive 7 c2Mgr [some 3] 2 5 c2Db

/-! ## Claim C10: invalid UUID aborts the whole mark-as-read -/

/-- C10: when any listed message-id string fails UUID parsing, the whole
`mark_as_read` is a no-op — the comprehension raises before the UPDATE
runs, the exception handler rolls back, and nothing is broadcast; even the
valid ids in the same list mark nothing. -/
theorem C10_invalid_uuid_noop (live : Nat → Bool) (now : Nat)
    (mgr : ConnectionManager) (ids : List RawId) (u c : Nat) (db : List Message)
    (h : none ∈ ids) :
    (handle_mark_as_read live now mgr ids u c db).db = db ∧
    (handle_mark_as_read live now mgr ids u c db).deliveries = [] ∧
    (handle_mark_as_read live now mgr ids u c db).manager = mgr := by
  have hne : ids ≠ [] := by
    intro h0
    subst h0
    cases h
  unfold handle_mark_as_read
  rw [if_neg hne, parseMessageIds_of_invalid h]
  exact ⟨rfl, rfl, rfl⟩

/-- Witness for C10: a list holding valid id 3 and an unparsable string
leaves the table (with message 3 unread) and the sockets untouched. -/
theorem C10_invalid_uuid_noop_witness :
    ((none : RawId) ∈ ([some 3, none] : List RawId)) ∧
    (handle_mark_as_read allLive 7 c2Mgr [some 3, none] 1 5 c2Db).db = c2Db ∧
    (handle_mark_as_read allLive 7 c2Mgr [some 3, none] 1 5 c2Db).deliveries = [] :=
  ⟨by decide,
    (C10_invalid_uuid_noop allLive 7 c2Mgr [some 3, none] 1 5 c2Db (by decide)).1,
    (C10_invalid_uuid_noop allLive 7 c2Mgr [some 3, none] 1 5 c2Db (by decide)).2.1⟩

/-! ## Claim C4: last-message denormalization fidelity -/

/-- C4: every successful `send_message` appends exactly one new message
(content = stripped input, sender = requester, `created_at` = the server
timestamp) and, in the same transaction step, sets the conversation's
`last_message_content` to that message's content truncated to 100
characters, `last_message_sender_id` to the sender, and `last_message_at`
to the message's creation timestamp. -/
theorem C4_denormalization (live : Nat → Bool) (now newId : Nat)
    (mgr : ConnectionManager) (content_raw : String) (mt : MessageType)
    (u : Nat) (conv : Conversation) (db : List Message)
    (hc : pyStrip content_raw ≠ "") :
    ∃ m : Message,
      (handle_send_message live true now newId mgr content_raw mt u conv db).db =
        db ++ [m] ∧
      m.sender_id = u ∧
      m.content = pyStrip content_raw ∧
      m.created_at = now ∧
      (handle_send_message live true now newId mgr content_raw mt u conv db).conversation.last_message_content =
        some (m.content.take 100) ∧
      (handle_send_message live true now newId mgr content_raw mt u conv db).conversation.last_message_sender_id =
        some u ∧
      (handle_send_message live true now newId mgr content_raw mt u conv db).conversation.last_message_at =
        m.created_at := by
  simp only [handle_send_message]
  rw [if_neg hc]
  exact ⟨_, rfl, rfl, rfl, rfl, rfl, rfl, rfl⟩

/-- The conversation used to instantiate the send-message theorems. -/
def c4Conv : Conversation :=
  { id := 5, traveler_id := 1, local_id := 2, last_message_at := 0,
    last_message_content := none, last_message_sender_id := none,
    is_active := true, traveler_archived := false, local_archived := false }

/-- Witness for C4 at the content `"  Hello  "` (stripped to `"Hello"`). -/
theorem C4_denormalization_witness :
    (pyStrip "  Hello  " ≠ "") ∧
    (∃ m : Message,
      (handle_send_message allLive true 3 9 c2Mgr "  Hello  " MessageType.text 1 c4Conv []).db =
        [] ++ [m] ∧
      m.sender_id = 1 ∧
      m.content = pyStrip "  Hello  " ∧
      m.created_at = 3 ∧
      (handle_send_message allLive true 3 9 c2Mgr "  Hello  " MessageType.text 1 c4Conv []).conversation.last_message_content =
        some (m.content.take 100) ∧
      (handle_send_message allLive true 3 9 c2Mgr "  Hello  " MessageType.text 1 c4Conv []).conversation.last_message_sender_id =
        some 1 ∧
      (handle_send_message allLive true 3 9 c2Mgr "  Hello  " MessageType.text 1 c4Conv []).conversation.last_message_at =
        m.created_at) :=
  ⟨by decide,
    C4_denormalization allLive 3 9 c2Mgr "  Hello  " MessageType.text 1 c4Conv []
      (by decide)⟩

/-! ## Claim C8: persistence failure during send is a silent rollback -/

/-- C8: when persistence fails during `send_message` (the add/flush/commit
raises), the transaction is rolled back: no message row is added, the
conversation's denormalized fields are unchanged, no `new_message` event is
broadcast to any socket, and the acting session receives no error event
(the deliveries are empty, so nothing at all is written to any socket). -/
theorem C8_persistence_failure (live : Nat → Bool) (now newId : Nat)
    (mgr : ConnectionManager) (content_raw : String) (mt : MessageType)
    (u : Nat) (conv : Conversation) (db : List Message) :
    (handle_send_message live false now newId mgr content_raw mt u conv db).db = db ∧
    (handle_send_message live false now newId mgr content_raw mt u conv db).conversation =
      conv ∧
    (handle_send_message live false now newId mgr content_raw mt u conv db).deliveries =
      [] ∧
    (handle_send_message live false now newId mgr content_raw mt u conv db).manager =
      mgr := by
  by_cases hc : pyStrip content_raw = ""
  · simp only [handle_send_message]
    rw [if_pos hc]
    exact ⟨rfl, rfl, rfl, rfl⟩
  · simp only [handle_send_message]
    rw [if_neg hc]
    exact ⟨rfl, rfl, rfl, rfl⟩

/-! ## Claim C9: conversation creation is idempotent per pair -/

/-- C9: when the target guide checks out and exactly one active conversation
between this (traveler, local) pair already exists, `create_conversation`
returns that conversation and writes nothing: no duplicate conversation row
and no new message row. -/
theorem C9_create_idempotent (cu : AppUser) (lid : Nat) (initial : String)
    (users : List AppUser) (convs : List Conversation) (msgs : List Message)
    (ncid nmid now : Nat) (g : AppUser) (c0 : Conversation)
    (hg : users.filter (localGuideMatch lid) = [g])
    (hc : convs.filter (pairMatch cu.id lid) = [c0]) :
    create_conversation cu lid initial users convs msgs ncid nmid now =
      ((convs, msgs), CreateOutcome.returned c0) := by
  unfold create_conversation
  rw [hg, hc]
  rfl

/-- Supporting fact for the unique-match hypothesis: `create_conversation`
never produces a duplicate — any (traveler, local) pair with at most one
active conversation in the table still has at most one after the call (in
particular, the endpoint that is the only creator of conversations keeps
the pair unique, so the hypothesis of the idempotence theorem holds on
every reachable table). -/
theorem create_conversation_pair_unique (cu : AppUser) (lid : Nat) (initial : String)
    (users : List AppUser) (convs : List Conversation) (msgs : List Message)
    (ncid nmid now : Nat) (t l : Nat)
    (h : (convs.filter (pairMatch t l)).length ≤ 1) :
    (((create_conversation cu lid initial users convs msgs ncid nmid now).1.1).filter
        (pairMatch t l)).length ≤ 1 := by
  unfold create_conversation
  cases hu : scalarOneOrNone (users.filter (localGuideMatch lid)) with
  | none => exact h
  | some o =>
    cases o with
    | none => exact h
    | some g =>
      cases hcm : scalarOneOrNone (convs.filter (pairMatch cu.id lid)) with
      | none => exact h
      | some o2 =>
        cases o2 with
        | some c0 => exact h
        | none =>
          have hempty : convs.filter (pairMatch cu.id lid) = [] := by
            cases hl : convs.filter (pairMatch cu.id lid) with
            | nil => rfl
            | cons a rest =>
              rw [hl] at hcm
              cases rest with
              | nil => simp [scalarOneOrNone] at hcm
              | cons b r => simp [scalarOneOrNone] at hcm
          simp only [List.filter_append, List.length_append]
          by_cases hp : pairMatch t l
              (Conversation.mk ncid cu.id lid now (some (initial.take 100))
                (some cu.id) true false false) = true
          · have hp' : cu.id = t ∧ lid = l := by
              simpa [pairMatch] using hp
            obtain ⟨h1, h2⟩ := hp'
            subst h1
            subst h2
            rw [hempty]
            simpa using List.length_filter_le _
              [Conversation.mk ncid cu.id lid now (some (initial.take 100))
                (some cu.id) true false false]
          · rw [show List.filter (pairMatch t l)
                [Conversation.mk ncid cu.id lid now (some (initial.take 100))
                  (some cu.id) true false false] = [] from by
                simp [List.filter_cons, hp]]
            simpa using h

/-- An existing active conversation between traveler 1 and guide 2. -/
def c9Existing : Conversation :=
  { id := 40, traveler_id := 1, local_id := 2, last_message_at := 0,
    last_message_content := some "hey", last_message_sender_id := some 1,
    is_active := true, traveler_archived := false, local_archived := false }

/-- Witness for C9: traveler 1 re-contacting guide 2 gets conversation 40
back and the tables are unchanged. -/
theorem C9_create_idempotent_witness :
    (([⟨1, true, "traveler"⟩, ⟨2, true, "local"⟩] : List AppUser).filter
        (localGuideMatch 2) = [⟨2, true, "local"⟩]) ∧
    (([c9Existing].filter (pairMatch 1 2)) = [c9Existing]) ∧
    (create_conversation ⟨1, true, "traveler"⟩ 2 "hello again"
        [⟨1, true, "traveler"⟩, ⟨2, true, "local"⟩] [c9Existing] [] 41 42 9 =
      (([c9Existing], []), CreateOutcome.returned c9Existing)) :=
  ⟨by decide, by decide,
    C9_create_idempotent ⟨1, true, "traveler"⟩ 2 "hello again"
      [⟨1, true, "traveler"⟩, ⟨2, true, "local"⟩] [c9Existing] [] 41 42 9
      ⟨2, true, "local"⟩ c9Existing (by decide) (by decide)⟩

/-! ## Claim C7: cleanup on every exit path -/

/-- The number of `manager.disconnect` calls an endpoint execution makes:
one exactly when the `user` local was resolved, zero otherwise. -/
theorem endpoint_disconnect_calls (env : EndpointEnv) :
    (websocket_chat_endpoint env).disconnect_calls =
      if userResolved env = true then 1 else 0 := by
  obtain ⟨tok, auth, clk, frames⟩ := env
  cases tok
  · rfl
  · cases auth with
    | exn => rfl
    | ok o =>
      cases o with
      | none => rfl
      | some uid =>
        cases clk with
        | exn => rfl
        | ok b => cases b <;> rfl

/-- C7, counterexample. The claim says every exit path — including
exceptions thrown before the message loop starts — calls `disconnect` for
the session exactly once. When `get_current_user_websocket` raises (an
exception before the loop), the `user` local is still `None` in the
`finally` block and `disconnect` is called zero times, not once. -/
theorem C7_cleanup_counterexample :
    (websocket_chat_endpoint
      { token_provided := true, auth := StepOutcome.exn,
        conversation_lookup := StepOutcome.ok true, frames := [] }).disconnect_calls
      = 0 :=
  rfl

/-- C7, amended: `disconnect` is called at most once per execution; it is
called exactly once on every exit path on which the user identity was
resolved — in particular whenever `connect` ran, whatever the loop did —
while exit paths failing before identity resolution call it zero times
(nothing was registered there); and `disconnect` on a socket that is absent
from a user who still has other sockets is a harmless no-op. -/
theorem C7_cleanup_amended :
    (∀ env : EndpointEnv, (websocket_chat_endpoint env).disconnect_calls ≤ 1) ∧
    (∀ env : EndpointEnv, (websocket_chat_endpoint env).connect_calls = 1 →
      (websocket_chat_endpoint env).disconnect_calls = 1) ∧
    (∀ env : EndpointEnv, userResolved env = true →
      (websocket_chat_endpoint env).disconnect_calls = 1) ∧
    (∀ env : EndpointEnv, userResolved env = false →
      (websocket_chat_endpoint env).disconnect_calls = 0) ∧
    (∀ (st : ConnectionManager) (live : Nat → Bool) (ws u c : Nat),
      ws ∉ st.active_connections u → st.active_connections u ≠ [] →
      st.disconnect live ws u c = (st, [])) := by
  refine ⟨?_, ?_, ?_, ?_, ?_⟩
  · intro env
    rw [endpoint_disconnect_calls]
    split
    · exact Nat.le_refl 1
    · exact Nat.zero_le 1
  · intro env h
    rw [endpoint_disconnect_calls]
    obtain ⟨tok, auth, clk, frames⟩ := env
    cases tok
    · cases h
    · cases auth with
      | exn => cases h
      | ok o =>
        cases o with
        | none => cases h
        | some uid =>
          cases clk with
          | exn => cases h
          | ok b =>
            cases b
            · cases h
            · rfl
  · intro env h
    rw [endpoint_disconnect_calls, if_pos h]
  · intro env h
    rw [endpoint_disconnect_calls]
    rw [if_neg]
    rw [h]
    exact Bool.false_ne_true
  · intro st live ws u c hnm hne
    simp only [ConnectionManager.disconnect, removeElem_not_mem hnm,
      Function.update_eq_self]
    rw [if_neg hne]

/-- A complete, successful endpoint run: token, auth, membership, a loop
with one bad frame and a clean disconnect. -/
def c7Env : EndpointEnv :=
  { token_provided := true, auth := StepOutcome.ok (some 7),
    conversation_lookup := StepOutcome.ok true,
    frames := [LoopFrame.badJson, LoopFrame.frame, LoopFrame.wsDisconnect] }

/-- Witness for C7 (amended) at `c7Env` and at a defensive `disconnect` of
the unknown socket 99. -/
theorem C7_cleanup_amended_witness :
    (userResolved c7Env = true) ∧
    ((websocket_chat_endpoint c7Env).disconnect_calls = 1) ∧
    (99 ∉ c2Mgr.active_connections 1 ∧ c2Mgr.active_connections 1 ≠ [] ∧
      c2Mgr.disconnect allLive 99 1 5 = (c2Mgr, [])) :=
  ⟨rfl, C7_cleanup_amended.2.2.1 c7Env rfl,
    by decide, by decide,
    C7_cleanup_amended.2.2.2.2 c2Mgr allLive 99 1 5 (by decide) (by decide)⟩

end LocalGhost
